import Mathlib

/-!
Shallow embedding of `volvo_usb_verifier.py` (class `VolvoUSBVerifier`).

The verifier walks a directory tree, checks structural limits and per-file
audio metadata against fixed device constraints, collects human-readable
error lines in `self.errors` and structured problem records (the CSV rows)
in `self.problem_files`, and finally returns `len(self.errors) == 0`.

Modelling conventions:
- A directory tree is a list of `WalkEntry` records, one per `(root, dirs,
  files)` triple yielded by `os.walk`, in walk order.
- `MFile.ext` stands for `Path(name).suffix.lower()` of the source.
- Audio-metadata probing (the mutagen calls `MP3(...)`, `ASF(...)`,
  `MP4(...)`) is I/O; each file carries the outcome the probe would yield,
  as an `Except` value (`.error` = the constructor raised an exception).
  `AudioProbe.raises` stands for an unanticipated exception escaping the
  per-format handler, caught by the outer `try` of `_verify_audio_file`.
- The thread pool processes futures with `as_completed`, i.e. in an
  arbitrary completion order; that order is modelled as an explicit list
  `perm` of indices into the discovered audio-file list.
- The platform-specific filesystem probing (`verify_filesystem`) shells out
  to OS utilities and is environment-dependent; it is not modelled (none of
  the analysed properties depend on it, and on an unrecognised platform it
  only appends a warning).
-/

namespace VolvoUSBVerifier

/-- Specification constants of the class (lines 63-78 of the source). -/
def MAX_TOTAL_FILES : Nat := 15000

def MAX_ROOT_FOLDERS : Nat := 1000

def MAX_FILES_PER_FOLDER : Nat := 254

def MAX_NESTING_DEPTH : Nat := 8

def MAX_PATH_LENGTH : Nat := 60

def MAX_FILENAME_LENGTH : Nat := 64

def SUPPORTED_FORMATS : List String := [".mp3", ".wma", ".aac", ".m4a", ".m4b"]

def UNSUPPORTED_FORMATS : List String := [".flac", ".ogg", ".wav", ".ape", ".alac"]

def FORBIDDEN_BITRATE : Nat := 144

def VALID_SAMPLE_RATES : List Nat := [32000, 44100, 48000]

def MIN_BITRATE : Nat := 32

def MAX_BITRATE : Nat := 320

def UNSAFE_CHARS : List Char :=
  "üéñàèìòùáíóúäëïöüÿâêîôûãõçøåæœ¿¡«»°±²³µ¶·¸¹º¼½¾×÷".toList

/-- One row of `self.problem_files` (a dict with these four keys). -/
structure Finding where
  file_path : String
  issue_type : String
  severity : String
  description : String
deriving DecidableEq, Repr

/-- ID3 tag data read by `_verify_id3_tags`: the optional `version` triple
(`hasattr(tags, 'version')`) and the byte sizes of the APIC frame payloads. -/
structure ID3Tags where
  version : Option (Nat × Nat × Nat)
  apicDataSizes : List Nat
deriving Repr

/-- Fields of a `mutagen.mp3.MP3` object read by `_verify_mp3`.
`bitrate = none` models an absent bitrate; Python treats both `None` and
`0` as falsy in `if audio.info.bitrate:`. -/
structure MP3Info where
  bitrate : Option Nat
  sample_rate : Nat
  bitrate_mode : Option String
  tags : Option ID3Tags
deriving Repr

/-- Fields of a `mutagen.asf.ASF` object read by `_verify_wma`. -/
structure ASFInfo where
  bitrate : Option Nat
deriving Repr

/-- Fields of a `mutagen.mp4.MP4` object read by `_verify_aac_m4a`;
`sample_rate = none` models `hasattr(audio.info, 'sample_rate')` false. -/
structure MP4Info where
  sample_rate : Option Nat
deriving Repr

/-- Outcome of probing one file, per container family. -/
inductive AudioProbe where
  | mp3 (r : Except String MP3Info)
  | wma (r : Except String ASFInfo)
  | mp4 (r : Except String MP4Info)
  | raises (msg : String)
  | nofile
deriving Repr

/-- A file as seen during the walk. `ext` is `Path(name).suffix.lower()`. -/
structure MFile where
  name : String
  ext : String
  probe : AudioProbe
deriving Repr

/-- One `(root, dirs, files)` triple of `os.walk`; `rootRel` is the part
sequence of the directory relative to the drive root (empty for the root). -/
structure WalkEntry where
  rootRel : List String
  dirs : List String
  files : List MFile
deriving Repr

/-- A discovered file together with the parts of its directory, as paired
during the walk. -/
structure PFile where
  dirParts : List String
  file : MFile
deriving Repr

/-- `str(file_path.relative_to(self.drive_path))` with POSIX separators. -/
def fmtRel (dirParts : List String) (name : String) : String :=
  match dirParts with
  | [] => name
  | _ => String.intercalate "/" dirParts ++ "/" ++ name

def relOf (p : PFile) : String := fmtRel p.dirParts p.file.name

/-- All files of the walk in discovery order, paired with their directory. -/
def discovered (drive : List WalkEntry) : List PFile :=
  drive.flatMap (fun e => e.files.map (fun f => ⟨e.rootRel, f⟩))

/-- Python truthiness of an optional numeric attribute
(`if audio.info.bitrate:`). -/
def truthy : Option Nat → Option Nat
  | some b => if b = 0 then none else some b
  | none => none

/-- Bitrate checks of `_verify_mp3` (lines 582-603). -/
def mp3BitrateChecks (rel : String) (info : MP3Info) : List String × List Finding :=
  match truthy info.bitrate with
  | none => ([], [])
  | some br =>
    let kbps := br / 1000
    if kbps = FORBIDDEN_BITRATE then
      ([s!"✗ {rel}: 144 kbps is explicitly not supported"],
       [⟨rel, "Bitrate", "Error", "144 kbps is forbidden"⟩])
    else if kbps < MIN_BITRATE ∨ kbps > MAX_BITRATE then
      ([s!"⚠ {rel}: bitrate {kbps} kbps outside supported range ({MIN_BITRATE}-{MAX_BITRATE})"],
       [⟨rel, "Bitrate", "Warning", s!"{kbps} kbps (range: {MIN_BITRATE}-{MAX_BITRATE})"⟩])
    else ([], [])

/-- Sample-rate check of `_verify_mp3` (lines 605-614). -/
def mp3SampleRateChecks (rel : String) (info : MP3Info) : List String × List Finding :=
  if info.sample_rate ∈ VALID_SAMPLE_RATES then ([], [])
  else
    let sr := info.sample_rate
    ([s!"⚠ {rel}: sample rate {sr} Hz (recommended: 44100 Hz)"],
     [⟨rel, "Sample Rate", "Warning", s!"{sr} Hz (recommended: 32000, 44100, or 48000 Hz)"⟩])

/-- Python `str.upper()`, character-wise (the strings it is applied to in
the source are ASCII). -/
def strUpper (s : String) : String := ⟨s.data.map Char.toUpper⟩

/-- Python `'VBR' in str(mode).upper()`. -/
def containsVBR (s : String) : Bool := ((strUpper s).splitOn "VBR").length > 1

/-- VBR check of `_verify_mp3` (lines 616-626);
`bitrate_mode = none` models `hasattr(audio.info, 'bitrate_mode')` false. -/
def mp3VbrChecks (rel : String) (info : MP3Info) : List String × List Finding :=
  match info.bitrate_mode with
  | none => ([], [])
  | some mode =>
    if containsVBR mode then
      ([s!"⚠ {rel}: VBR encoding (CBR strongly recommended)"],
       [⟨rel, "Encoding", "Warning", "VBR encoding (CBR strongly recommended)"⟩])
    else ([], [])

/-- ID3 version check of `_verify_id3_tags` (lines 661-684). -/
def tagVersionChecks (rel : String) (tags : ID3Tags) : List String × List Finding :=
  match tags.version with
  | none => ([], [])
  | some (major, minor, _rev) =>
    if major = 2 ∧ minor = 3 then ([], [])
    else if major = 2 ∧ minor = 4 then
      ([s!"⚠ {rel}: ID3v2.4 tags (ID3v2.3 recommended for compatibility)"],
       [⟨rel, "ID3 Tags", "Warning", "ID3v2.4 (ID3v2.3 recommended)"⟩])
    else if major = 1 then ([], [])
    else
      ([s!"⚠ {rel}: Unusual ID3 version {major}.{minor}"],
       [⟨rel, "ID3 Tags", "Warning", s!"Unusual ID3 version {major}.{minor}"⟩])

/-- Embedded album-art check of `_verify_id3_tags` (lines 686-699): a
warning per APIC frame whose payload exceeds the 500*500*3 byte estimate. -/
def albumArtChecks (rel : String) (tags : ID3Tags) : List String × List Finding :=
  let big := tags.apicDataSizes.filter (fun sz => sz > 500 * 500 * 3)
  (big.map (fun sz => let kb := sz / 1024
     s!"⚠ {rel}: Large embedded artwork ({kb} KB, keep under ~750 KB)"),
   big.map (fun sz => let kb := sz / 1024
     (⟨rel, "Album Art", "Warning", s!"Large artwork: {kb} KB"⟩ : Finding)))

/-- `_verify_id3_tags` (lines 655-701). -/
def _verify_id3_tags (rel : String) (tags : ID3Tags) : List String × List Finding :=
  let v := tagVersionChecks rel tags
  let a := albumArtChecks rel tags
  (v.1 ++ a.1, v.2 ++ a.2)

/-- Tag presence dispatch of `_verify_mp3` (lines 628-641). -/
def mp3TagChecks (rel : String) (info : MP3Info) : List String × List Finding :=
  match info.tags with
  | some tags => _verify_id3_tags rel tags
  | none =>
    ([s!"⚠ {rel}: No ID3 tags found"],
     [⟨rel, "ID3 Tags", "Warning", "No ID3 tags found"⟩])

/-- `_verify_mp3` (lines 574-653): on a probe exception, the lone
read-error pair; otherwise the four check groups in source order. -/
def _verify_mp3 (rel : String) (r : Except String MP3Info) : List String × List Finding :=
  match r with
  | .error e =>
    ([s!"⚠ {rel}: Error reading MP3: {e}"], [⟨rel, "Read Error", "Error", e⟩])
  | .ok info =>
    let b := mp3BitrateChecks rel info
    let s := mp3SampleRateChecks rel info
    let v := mp3VbrChecks rel info
    let t := mp3TagChecks rel info
    (b.1 ++ s.1 ++ v.1 ++ t.1, b.2 ++ s.2 ++ v.2 ++ t.2)

/-- `_verify_wma` (lines 703-734): only a bitrate range check. -/
def _verify_wma (rel : String) (r : Except String ASFInfo) : List String × List Finding :=
  match r with
  | .error e =>
    ([s!"⚠ {rel}: Error reading WMA: {e}"], [⟨rel, "Read Error", "Error", e⟩])
  | .ok info =>
    match truthy info.bitrate with
    | none => ([], [])
    | some br =>
      let kbps := br / 1000
      if kbps < MIN_BITRATE ∨ kbps > MAX_BITRATE then
        ([s!"⚠ {rel}: bitrate {kbps} kbps outside typical range ({MIN_BITRATE}-{MAX_BITRATE})"],
         [⟨rel, "Bitrate", "Warning", s!"{kbps} kbps (range: {MIN_BITRATE}-{MAX_BITRATE})"⟩])
      else ([], [])

/-- `_verify_aac_m4a` (lines 736-779). `hasattr(audio, 'info')` always
holds for mutagen MP4 objects. `ext` is `file_path.suffix.lower()`, the
same value the dispatcher in `_verify_audio_file` tested. -/
def _verify_aac_m4a (rel : String) (ext : String) (r : Except String MP4Info) :
    List String × List Finding :=
  match r with
  | .error e =>
    ([s!"⚠ {rel}: Error reading AAC/M4A: {e}"], [⟨rel, "Read Error", "Error", e⟩])
  | .ok info =>
    let drm : List String × List Finding :=
      if ext = ".m4p" then
        ([s!"✗ {rel}: .m4p file likely has DRM (iTunes protected)"],
         [⟨rel, "DRM", "Error", "iTunes DRM protected (m4p)"⟩])
      else ([], [])
    let sr : List String × List Finding :=
      match info.sample_rate with
      | none => ([], [])
      | some v =>
        if v < 8000 ∨ v > 96000 then
          ([s!"⚠ {rel}: sample rate {v} Hz outside supported range (8-96 kHz)"],
           [⟨rel, "Sample Rate", "Warning", s!"{v} Hz (range: 8-96 kHz)"⟩])
        else ([], [])
    (drm.1 ++ sr.1, drm.2 ++ sr.2)

/-- Dispatch body of `_verify_audio_file` (lines 543-568): the outer
`except` converts an escaping exception into a single read-error pair;
otherwise the extension selects the handler. A probe value of the wrong
family for the extension cannot arise in the modelled program and yields
no findings. -/
def fileOut (p : PFile) : List String × List Finding :=
  let rel := relOf p
  match p.file.probe with
  | .raises msg =>
    ([s!"⚠ Error reading {rel}: {msg}"], [⟨rel, "Read Error", "Error", msg⟩])
  | probe =>
    if p.file.ext = ".mp3" then
      match probe with
      | .mp3 r => _verify_mp3 rel r
      | _ => ([], [])
    else if p.file.ext = ".wma" then
      match probe with
      | .wma r => _verify_wma rel r
      | _ => ([], [])
    else if p.file.ext ∈ [".m4a", ".m4b", ".aac"] then
      match probe with
      | .mp4 r => _verify_aac_m4a rel p.file.ext r
      | _ => ([], [])
    else ([], [])

/-- `_verify_audio_file` (lines 543-572): returns `None` when there are no
display issues. -/
def _verify_audio_file (p : PFile) : Option (List String × List Finding) :=
  let r := fileOut p
  if r.1.isEmpty then none else some r

/-- CSV rows contributed by one audited file. -/
def fileCsv (p : PFile) : List Finding :=
  match _verify_audio_file p with
  | some r => r.2
  | none => []

/-! ### verify_structure (lines 316-453) -/

/-- Insertion sort on characters by code point, for Python `sorted(...)`. -/
def insertChar (c : Char) : List Char → List Char
  | [] => [c]
  | d :: ds => if c.val ≤ d.val then c :: d :: ds else d :: insertChar c ds

def sortChars : List Char → List Char
  | [] => []
  | c :: cs => insertChar c (sortChars cs)

/-- Python `", ".join(sorted(self.UNSAFE_CHARS.intersection(set(path_str))))`. -/
def offendingIn (path_str : String) : List Char :=
  sortChars ((path_str.toList.filter (fun c => c ∈ UNSAFE_CHARS)).dedup)

def joinChars (cs : List Char) : String :=
  String.intercalate ", " (cs.map (fun c => String.singleton c))

/-- Path-length check for one file (lines 364-372 of the source). -/
def pathLengthChecks (p : PFile) : List Finding :=
  let path_str := relOf p
  let n := path_str.length
  if n > MAX_PATH_LENGTH then
    [⟨path_str, "Path Length", "ERROR",
      s!"Path length {n} exceeds maximum {MAX_PATH_LENGTH}"⟩]
  else []

/-- Filename-length check for one file (lines 374-381). -/
def filenameLengthChecks (p : PFile) : List Finding :=
  let path_str := relOf p
  let m := p.file.name.length
  if m > MAX_FILENAME_LENGTH then
    [⟨path_str, "Filename Length", "ERROR",
      s!"Filename length {m} exceeds maximum {MAX_FILENAME_LENGTH}"⟩]
  else []

/-- Unsafe-character check for one file (lines 383-391). -/
def invalidCharChecks (p : PFile) : List Finding :=
  let path_str := relOf p
  let cs := offendingIn path_str
  if cs.isEmpty then []
  else
    let listed := joinChars cs
    [⟨path_str, "Invalid Characters", "WARNING",
      s!"Path contains extended ASCII characters: {listed}"⟩]

/-- The `problem_files` rows appended by `verify_structure`, in walk order. -/
def structFileFindings (p : PFile) : List Finding :=
  pathLengthChecks p ++ filenameLengthChecks p ++ invalidCharChecks p

def structuralFindings (drive : List WalkEntry) : List Finding :=
  (discovered drive).flatMap structFileFindings

/-- Audio files in one directory
(`[f for f in files if Path(f).suffix.lower() in self.SUPPORTED_FORMATS]`). -/
def audioFilesIn (files : List MFile) : Nat :=
  (files.filter (fun f => f.ext ∈ SUPPORTED_FORMATS)).length

def totalAudioFiles (drive : List WalkEntry) : Nat :=
  (drive.map (fun e => audioFilesIn e.files)).sum

/-- `root_folders`: for every walked directory whose parent is the drive
root (one relative part), add its subdirectory count. -/
def rootFolders (drive : List WalkEntry) : Nat :=
  (drive.filterMap
    (fun e => if e.rootRel.length = 1 then some e.dirs.length else none)).sum

def maxNesting (drive : List WalkEntry) : Nat :=
  (drive.map (fun e => e.rootRel.length)).foldl max 0

/-- `long_paths`: relative paths whose length exceeds the limit, with the
measured length, in walk order. -/
def longPaths (drive : List WalkEntry) : List (String × Nat) :=
  (discovered drive).filterMap (fun p =>
    let s := relOf p
    if s.length > MAX_PATH_LENGTH then some (s, s.length) else none)

/-- `str(Path(folder).relative_to(self.drive_path))` for a walked folder. -/
def dirStr (parts : List String) : String :=
  match parts with
  | [] => "."
  | _ => String.intercalate "/" parts

/-- The `self.errors` lines appended by `verify_structure` (lines 398-453),
in append order: total files, root folders, overcrowded folders (first 5),
nesting depth, long paths (first 5 plus a truncation marker). -/
def structureErrors (drive : List WalkEntry) : List String :=
  let total := totalAudioFiles drive
  let rf := rootFolders drive
  let over := drive.filter (fun e => audioFilesIn e.files > MAX_FILES_PER_FOLDER)
  let nest := maxNesting drive
  let lps := longPaths drive
  let e1 := if total ≤ MAX_TOTAL_FILES then []
    else [s!"✗ Total files: {total} exceeds maximum {MAX_TOTAL_FILES}"]
  let e2 := if rf ≤ MAX_ROOT_FOLDERS then []
    else [s!"✗ Root folders: {rf} exceeds maximum {MAX_ROOT_FOLDERS}"]
  let e3 := (over.take 5).map (fun e =>
    let c := audioFilesIn e.files
    let d := dirStr e.rootRel
    s!"✗ Folder \x27{d}\x27 has {c} files (max {MAX_FILES_PER_FOLDER})")
  let e4 := if nest ≤ MAX_NESTING_DEPTH then []
    else [s!"✗ Max nesting depth: {nest} exceeds maximum {MAX_NESTING_DEPTH}"]
  let e5 := (lps.take 5).map (fun pl =>
    let n := pl.2
    let s := pl.1
    s!"✗ Path too long ({n} chars): {s}")
  let nlp := lps.length
  let nmore := nlp - 5
  let e6 := if nlp > 5 then [s!"... and {nmore} more long paths"] else []
  e1 ++ e2 ++ e3 ++ e4 ++ e5 ++ e6

/-! ### verify_audio_files (lines 455-541) -/

/-- First pass of `verify_audio_files`: the `self.errors` lines for files
whose extension is in the unsupported set, in discovery order. -/
def unsupportedErrors (drive : List WalkEntry) : List String :=
  (discovered drive).filterMap (fun p =>
    if p.file.ext ∈ UNSUPPORTED_FORMATS then
      let u := strUpper p.file.ext
      let rel := relOf p
      some s!"✗ Unsupported format {u}: {rel}"
    else none)

/-- First pass, continued: the supported audio files collected for the
thread pool, in discovery order. -/
def audioList (drive : List WalkEntry) : List PFile :=
  (discovered drive).filter (fun p => p.file.ext ∈ SUPPORTED_FORMATS)

/-- The futures as `as_completed` yields them: `perm` lists the indices of
the audio files in completion order. -/
def completedFiles (files : List PFile) (perm : List Nat) : List PFile :=
  perm.filterMap (fun i => files.get? i)

/-- Second pass of `verify_audio_files`: `self.problem_files` rows are
extended with each finished future result, i.e. in completion order. -/
def auditFindings (files : List PFile) (perm : List Nat) : List Finding :=
  (completedFiles files perm).flatMap fileCsv

/-! ### verify_all, export_csv and the exit contract -/

structure ScanResult where
  errors : List String
  problemFiles : List Finding
  passed : Bool
deriving Repr

/-- `verify_all` (lines 98-126): structure scan, then the audio pass with
completion order `perm`; returns `len(self.errors) == 0`. -/
def verify_all (drive : List WalkEntry) (perm : List Nat) : ScanResult :=
  let errors := structureErrors drive ++ unsupportedErrors drive
  { errors := errors
    problemFiles := structuralFindings drive ++ auditFindings (audioList drive) perm
    passed := errors.isEmpty }

/-- `verify_all` line 119: the CSV is exported only when `self.problem_files`
is non-empty (and `main` always sets `self.csv_file`). -/
def csvWritten (drive : List WalkEntry) (perm : List Nat) : Bool :=
  !(verify_all drive perm).problemFiles.isEmpty

/-- `export_csv` (lines 781-790): the header row followed by one row per
problem-file record, in sequence order. -/
def export_rows (pf : List Finding) : List (List String) :=
  ["file_path", "issue_type", "severity", "description"] ::
    pf.map (fun r => [r.file_path, r.issue_type, r.severity, r.description])

/-- `main` (line 889): `sys.exit(0 if success else 1)`. -/
def exit_code (drive : List WalkEntry) (perm : List Nat) : Nat :=
  if (verify_all drive perm).passed then 0 else 1

/-- The two severity spellings the source uses for Error-level records
(`'ERROR'` in the structure phase, `'Error'` in the audio phase). -/
def isErrorSeverity (s : String) : Bool := s = "Error" || s = "ERROR"

/-! ### Concrete trees used by the counterexamples and witnesses -/

/-- An MP3 whose metadata reports the forbidden 144 kbps bitrate and is
otherwise unremarkable. -/
def mp3Info144 : MP3Info :=
  { bitrate := some 144000, sample_rate := 44100, bitrate_mode := none,
    tags := some { version := some (2, 3, 0), apicDataSizes := [] } }

def mp3Drive144 : List WalkEntry :=
  [{ rootRel := [], dirs := [],
     files := [{ name := "a.mp3", ext := ".mp3", probe := .mp3 (.ok mp3Info144) }] }]

/-- A tagless but otherwise unremarkable MP3. -/
def noTagMp3 (nm : String) : MFile :=
  { name := nm, ext := ".mp3",
    probe := .mp3 (.ok { bitrate := some 192000, sample_rate := 44100,
                         bitrate_mode := none, tags := none }) }

def demoDrive : List WalkEntry :=
  [{ rootRel := [], dirs := [], files := [noTagMp3 "a.mp3", noTagMp3 "b.mp3"] }]

/-- A tree holding a single unsupported-format file. -/
def flacDrive : List WalkEntry :=
  [{ rootRel := [], dirs := [],
     files := [{ name := "song.flac", ext := ".flac", probe := .nofile }] }]

/-- A tree holding a single DRM-marked MP4 variant file. -/
def m4pDrive : List WalkEntry :=
  [{ rootRel := [], dirs := [],
     files := [{ name := "song.m4p", ext := ".m4p",
                 probe := .mp4 (.ok { sample_rate := some 44100 }) }] }]

/-- An M4A whose sample rate is outside the valid discrete set but inside
the 8-96 kHz range checked for MP4-family files. -/
def m4aDrive : List WalkEntry :=
  [{ rootRel := [], dirs := [],
     files := [{ name := "b.m4a", ext := ".m4a",
                 probe := .mp4 (.ok { sample_rate := some 22050 }) }] }]

/-- An MP3 with ID3v2.4 tags and no other issue. -/
def mp3InfoV24 : MP3Info :=
  { bitrate := some 192000, sample_rate := 44100, bitrate_mode := none,
    tags := some { version := some (2, 4, 0), apicDataSizes := [] } }

def tagDrive : List WalkEntry :=
  [{ rootRel := [], dirs := [],
     files := [{ name := "a.mp3", ext := ".mp3", probe := .mp3 (.ok mp3InfoV24) }] }]

/-- A WMA whose metadata reports 144 kbps. -/
def wma144Drive : List WalkEntry :=
  [{ rootRel := [], dirs := [],
     files := [{ name := "c.wma", ext := ".wma",
                 probe := .wma (.ok { bitrate := some 144000 }) }] }]

/-- An MP3 with ID3v1 tags. -/
def mp3InfoV1 : MP3Info :=
  { bitrate := some 192000, sample_rate := 44100, bitrate_mode := none,
    tags := some { version := some (1, 1, 0), apicDataSizes := [] } }

/-- An MP3 with ID3v2.2 tags (an unusual version). -/
def mp3InfoV22 : MP3Info :=
  { bitrate := some 192000, sample_rate := 44100, bitrate_mode := none,
    tags := some { version := some (2, 2, 0), apicDataSizes := [] } }

/-- A tag-free MP3 record. -/
def mp3InfoNoTags : MP3Info :=
  { bitrate := some 192000, sample_rate := 44100, bitrate_mode := none, tags := none }

/-- An MP3 at 24 kbps, below the supported bitrate range. -/
def mp3Info24k : MP3Info :=
  { bitrate := some 24000, sample_rate := 44100, bitrate_mode := none,
    tags := some { version := some (2, 3, 0), apicDataSizes := [] } }

/-- An MP3 with a 22050 Hz sample rate, outside the valid discrete set. -/
def mp3Info22k : MP3Info :=
  { bitrate := some 192000, sample_rate := 22050, bitrate_mode := none,
    tags := some { version := some (2, 3, 0), apicDataSizes := [] } }

/-- An MP3 whose metadata reports no bitrate. -/
def mp3InfoNoBitrate : MP3Info :=
  { bitrate := none, sample_rate := 44100, bitrate_mode := none,
    tags := some { version := some (2, 3, 0), apicDataSizes := [] } }

/-! ## Helper lemmas -/

theorem filter_type_ne_nil {t t' : String} {l : List Finding}
    (hl : ∀ r ∈ l, r.issue_type = t') (ht : t' ≠ t) :
    l.filter (fun r => r.issue_type = t) = [] := by
  rw [List.filter_eq_nil_iff]
  intro a ha
  simp [hl a ha, ht]

theorem filter_type_eq_nil {t : String} {ts : List String} {l : List Finding}
    (hl : ∀ r ∈ l, r.issue_type ∈ ts) (ht : t ∉ ts) :
    l.filter (fun r => r.issue_type = t) = [] := by
  rw [List.filter_eq_nil_iff]
  intro a ha
  simp only [decide_eq_true_eq]
  intro he
  exact ht (he ▸ hl a ha)

theorem filter_type_eq_self {t : String} {l : List Finding}
    (hl : ∀ r ∈ l, r.issue_type = t) :
    l.filter (fun r => r.issue_type = t) = l := by
  rw [List.filter_eq_self]
  intro a ha
  simp [hl a ha]

theorem types_mono {l : List Finding} {t : String} {ts : List String}
    (h : ∀ r ∈ l, r.issue_type = t) (ht : t ∈ ts) :
    ∀ r ∈ l, r.issue_type ∈ ts :=
  fun r hr => (h r hr) ▸ ht

theorem typesOf_append {l₁ l₂ : List Finding} {ts : List String}
    (h₁ : ∀ r ∈ l₁, r.issue_type ∈ ts) (h₂ : ∀ r ∈ l₂, r.issue_type ∈ ts) :
    ∀ r ∈ l₁ ++ l₂, r.issue_type ∈ ts := by
  intro r h
  rcases List.mem_append.mp h with h | h
  exacts [h₁ r h, h₂ r h]

theorem mp3BitrateChecks_types (rel : String) (info : MP3Info) :
    ∀ r ∈ (mp3BitrateChecks rel info).2, r.issue_type = "Bitrate" := by
  intro r h
  unfold mp3BitrateChecks at h
  split at h
  · simp at h
  · dsimp only at h
    split at h
    · simp_all
    · split at h <;> simp_all

theorem mp3SampleRateChecks_types (rel : String) (info : MP3Info) :
    ∀ r ∈ (mp3SampleRateChecks rel info).2, r.issue_type = "Sample Rate" := by
  intro r h
  unfold mp3SampleRateChecks at h
  split at h <;> simp_all

theorem mp3VbrChecks_types (rel : String) (info : MP3Info) :
    ∀ r ∈ (mp3VbrChecks rel info).2, r.issue_type = "Encoding" := by
  intro r h
  unfold mp3VbrChecks at h
  split at h
  · simp at h
  · split at h <;> simp_all

theorem tagVersionChecks_types (rel : String) (tags : ID3Tags) :
    ∀ r ∈ (tagVersionChecks rel tags).2, r.issue_type = "ID3 Tags" := by
  intro r h
  unfold tagVersionChecks at h
  split at h
  · simp at h
  · split at h
    · simp_all
    · split at h
      · simp_all
      · split at h <;> simp_all

theorem albumArtChecks_types (rel : String) (tags : ID3Tags) :
    ∀ r ∈ (albumArtChecks rel tags).2, r.issue_type = "Album Art" := by
  intro r h
  unfold albumArtChecks at h
  simp at h
  obtain ⟨sz, hsz, rfl⟩ := h
  rfl

theorem mp3TagChecks_types (rel : String) (info : MP3Info) :
    ∀ r ∈ (mp3TagChecks rel info).2, r.issue_type ∈ ["ID3 Tags", "Album Art"] := by
  unfold mp3TagChecks
  cases info.tags with
  | none => intro r h; simp_all
  | some tags =>
    unfold _verify_id3_tags
    exact typesOf_append
      (types_mono (tagVersionChecks_types rel tags) (by simp))
      (types_mono (albumArtChecks_types rel tags) (by simp))

def mp3Types : List String :=
  ["Bitrate", "Sample Rate", "Encoding", "ID3 Tags", "Album Art", "Read Error"]

theorem _verify_mp3_types (rel : String) (x : Except String MP3Info) :
    ∀ r ∈ (_verify_mp3 rel x).2, r.issue_type ∈ mp3Types := by
  cases x with
  | error e => intro r h; simp [_verify_mp3] at h; simp [h, mp3Types]
  | ok info =>
    intro r h
    unfold _verify_mp3 at h
    dsimp only at h
    simp only [List.mem_append] at h
    rcases h with ((hb | hs) | hv) | ht
    · simp [mp3Types, mp3BitrateChecks_types rel info r hb]
    · simp [mp3Types, mp3SampleRateChecks_types rel info r hs]
    · simp [mp3Types, mp3VbrChecks_types rel info r hv]
    · have := mp3TagChecks_types rel info r ht
      simp [mp3Types] at this ⊢
      tauto

theorem _verify_wma_types (rel : String) (x : Except String ASFInfo) :
    ∀ r ∈ (_verify_wma rel x).2, r.issue_type ∈ ["Bitrate", "Read Error"] := by
  intro r h
  unfold _verify_wma at h
  split at h
  · simp_all
  · split at h
    · simp at h
    · dsimp only at h
      split at h <;> simp_all

theorem _verify_aac_m4a_types (rel ext : String) (x : Except String MP4Info)
    (hext : ext ≠ ".m4p") :
    ∀ r ∈ (_verify_aac_m4a rel ext x).2, r.issue_type ∈ ["Sample Rate", "Read Error"] := by
  intro r h
  unfold _verify_aac_m4a at h
  split at h
  · simp_all
  · dsimp only at h
    rw [if_neg hext] at h
    simp only [List.nil_append] at h
    split at h
    · simp at h
    · split at h <;> simp_all

theorem pathLengthChecks_types (p : PFile) :
    ∀ r ∈ pathLengthChecks p, r.issue_type = "Path Length" := by
  intro r h
  unfold pathLengthChecks at h
  dsimp only at h
  split at h <;> simp_all

theorem filenameLengthChecks_types (p : PFile) :
    ∀ r ∈ filenameLengthChecks p, r.issue_type = "Filename Length" := by
  intro r h
  unfold filenameLengthChecks at h
  dsimp only at h
  split at h <;> simp_all

theorem invalidCharChecks_types (p : PFile) :
    ∀ r ∈ invalidCharChecks p, r.issue_type = "Invalid Characters" := by
  intro r h
  unfold invalidCharChecks at h
  dsimp only at h
  split at h <;> simp_all

theorem structFileFindings_types (p : PFile) :
    ∀ r ∈ structFileFindings p,
      r.issue_type ∈ ["Path Length", "Filename Length", "Invalid Characters"] := by
  intro r h
  unfold structFileFindings at h
  simp only [List.mem_append] at h
  rcases h with (hp | hf) | hc
  · simp [pathLengthChecks_types p r hp]
  · simp [filenameLengthChecks_types p r hf]
  · simp [invalidCharChecks_types p r hc]

theorem filterMap_get_range {α : Type} (l : List α) :
    (List.range l.length).filterMap (fun i => l.get? i) = l := by
  induction l with
  | nil => simp
  | cons x xs ih =>
    have hc : ((fun i => (x :: xs).get? i) ∘ Nat.succ) = (fun i => xs.get? i) := by
      funext i
      simp
    rw [List.length_cons, List.range_succ_eq_map]
    simp only [List.filterMap_cons, List.filterMap_map, hc]
    simpa using ih

/-- When every future completes in submission order, aggregation reduces to
one pass over the discovered audio files. -/
theorem auditFindings_range (files : List PFile) :
    auditFindings files (List.range files.length) = files.flatMap fileCsv := by
  unfold auditFindings completedFiles
  rw [filterMap_get_range]

theorem completedFiles_perm {files : List PFile} {perm : List Nat}
    (h : perm.Perm (List.range files.length)) :
    (completedFiles files perm).Perm files := by
  have h2 := h.filterMap (fun i => files.get? i)
  rwa [filterMap_get_range] at h2

/-- The multiset of audio-audit findings does not depend on the completion
order, only their sequence does. -/
theorem auditFindings_perm {files : List PFile} {perm : List Nat}
    (h : perm.Perm (List.range files.length)) :
    (auditFindings files perm).Perm (files.flatMap fileCsv) :=
  List.Perm.flatMap_right fileCsv (completedFiles_perm h)

theorem filter_flatMap_nil {α : Type} {l : List α} {f : α → List Finding} {t : String}
    (h : ∀ a ∈ l, (f a).filter (fun r => r.issue_type = t) = []) :
    (l.flatMap f).filter (fun r => r.issue_type = t) = [] := by
  rw [List.filter_eq_nil_iff]
  intro a ha
  obtain ⟨x, hx, hax⟩ := List.mem_flatMap.mp ha
  have hnil := h x hx
  rw [List.filter_eq_nil_iff] at hnil
  exact hnil a hax

/-- An unanticipated exception while auditing one file becomes exactly one
Error-severity read-error row for that file. -/
theorem fileCsv_raises (dir : List String) (nm ext msg : String) :
    fileCsv ⟨dir, ⟨nm, ext, .raises msg⟩⟩ =
      [⟨fmtRel dir nm, "Read Error", "Error", msg⟩] := rfl

/-- No reachable branch of the per-file dispatch produces a DRM finding:
the `.m4p` check inside the MP4 handler requires the dispatcher to have
matched an extension other than `.m4p`. -/
theorem fileOut_no_drm (p : PFile) :
    ∀ r ∈ (fileOut p).2, r.issue_type ≠ "DRM" := by
  intro r h
  unfold fileOut at h
  cases hp : p.file.probe with
  | raises msg =>
    rw [hp] at h
    simp at h
    simp [h]
  | nofile =>
    rw [hp] at h
    dsimp only at h
    split at h <;> simp at h
  | mp3 x =>
    rw [hp] at h
    dsimp only at h
    by_cases h1 : p.file.ext = ".mp3"
    · rw [if_pos h1] at h
      have := _verify_mp3_types (relOf p) x r h
      simp [mp3Types] at this
      rcases this with ht | ht | ht | ht | ht | ht <;> simp [ht]
    · rw [if_neg h1] at h
      split at h <;> simp at h
  | wma x =>
    rw [hp] at h
    dsimp only at h
    by_cases h1 : p.file.ext = ".mp3"
    · rw [if_pos h1] at h
      simp at h
    · rw [if_neg h1] at h
      by_cases h2 : p.file.ext = ".wma"
      · rw [if_pos h2] at h
        have := _verify_wma_types (relOf p) x r h
        simp at this
        rcases this with ht | ht <;> simp [ht]
      · rw [if_neg h2] at h
        split at h <;> simp at h
  | mp4 x =>
    rw [hp] at h
    dsimp only at h
    by_cases h1 : p.file.ext = ".mp3"
    · rw [if_pos h1] at h
      simp at h
    · rw [if_neg h1] at h
      by_cases h2 : p.file.ext = ".wma"
      · rw [if_pos h2] at h
        simp at h
      · rw [if_neg h2] at h
        by_cases h3 : p.file.ext ∈ [".m4a", ".m4b", ".aac"]
        · rw [if_pos h3] at h
          have hne : p.file.ext ≠ ".m4p" := by
            intro hc
            rw [hc] at h3
            exact absurd h3 (by decide)
          have := _verify_aac_m4a_types (relOf p) p.file.ext x hne r h
          simp at this
          rcases this with ht | ht <;> simp [ht]
        · rw [if_neg h3] at h
          simp at h

theorem fileCsv_no_drm (p : PFile) :
    ∀ r ∈ fileCsv p, r.issue_type ≠ "DRM" := by
  intro r h
  apply fileOut_no_drm p r
  unfold fileCsv _verify_audio_file at h
  dsimp only at h
  split at h <;> simp_all

theorem fileCsv_filter_drm (p : PFile) :
    (fileCsv p).filter (fun r => r.issue_type = "DRM") = [] := by
  rw [List.filter_eq_nil_iff]
  intro a ha
  simp [fileCsv_no_drm p a ha]

/-! ## Claim theorems -/

/-- Claim C1, counterexample: a tree holding one MP3 at the forbidden 144
kbps bitrate. The scan produces exactly one Error-severity Bitrate Finding,
yet the overall verdict is pass and the process exits with the success
code, because per-file audit findings are never added to `self.errors`. -/
theorem C1_counterexample :
    ((verify_all mp3Drive144 [0]).problemFiles.map
        (fun r => (r.issue_type, r.severity))) = [("Bitrate", "Error")] ∧
    isErrorSeverity "Error" = true ∧
    (verify_all mp3Drive144 [0]).passed = true ∧
    exit_code mp3Drive144 [0] = 0 := by
  decide

/-- Claim C1, amended: the pass verdict and the exit code are a function of
the `errors` report list alone, i.e. of the structural-limit errors and the
unsupported-format errors; Error-severity Findings of the audio-audit phase
(Bitrate, DRM, Read Error) and per-file Filename Length findings never
affect them. Exit code 0 on pass and 1 on failure. -/
theorem C1_exit_contract (drive : List WalkEntry) (perm : List Nat) :
    ((verify_all drive perm).passed = true ↔
      structureErrors drive ++ unsupportedErrors drive = []) ∧
    exit_code drive perm =
      (if structureErrors drive ++ unsupportedErrors drive = [] then 0 else 1) := by
  constructor
  · unfold verify_all
    dsimp only
    exact List.isEmpty_iff
  · unfold exit_code verify_all
    dsimp only
    simp only [List.isEmpty_iff]

/-- Claim C2, counterexample: both `[0, 1]` and `[1, 0]` are completion
orders of the same unmodified two-file tree, and they yield different
Finding sequences and different export tables: the audio-audit phase emits
in completion order, not discovery order. -/
theorem C2_counterexample :
    List.Perm [1, 0] (List.range (audioList demoDrive).length) ∧
    List.Perm [0, 1] (List.range (audioList demoDrive).length) ∧
    (verify_all demoDrive [1, 0]).problemFiles ≠
      (verify_all demoDrive [0, 1]).problemFiles ∧
    export_rows (verify_all demoDrive [1, 0]).problemFiles ≠
      export_rows (verify_all demoDrive [0, 1]).problemFiles := by
  decide

/-- Claim C2, amended: the emitted Finding sequence follows the completion
order of the concurrent audits, so two runs may order it differently; what
is preserved under every completion order is the multiset of Findings,
which always is a permutation of the discovery-order sequence. -/
theorem C2_ordering (drive : List WalkEntry) (perm : List Nat)
    (h : perm.Perm (List.range (audioList drive).length)) :
    ((verify_all drive perm).problemFiles).Perm
      ((verify_all drive (List.range (audioList drive).length)).problemFiles) := by
  unfold verify_all
  dsimp only
  refine List.Perm.append_left _ ?_
  rw [auditFindings_range]
  exact auditFindings_perm h

theorem C2_ordering_witness :
    List.Perm [1, 0] (List.range (audioList demoDrive).length) ∧
    ((verify_all demoDrive [1, 0]).problemFiles).Perm
      ((verify_all demoDrive (List.range (audioList demoDrive).length)).problemFiles) :=
  ⟨by decide, C2_ordering demoDrive [1, 0] (by decide)⟩

/-- Claim C3, counterexample: a tree holding one `.flac` file. The scan
emits an UnsupportedFormat Error (the errors list is non-empty and the
verdict fails), yet the export is not written at all, so that Finding gets
no row: the export covers only the problem-files sequence. -/
theorem C3_counterexample :
    (verify_all flacDrive []).errors = ["✗ Unsupported format .FLAC: song.flac"] ∧
    (verify_all flacDrive []).passed = false ∧
    csvWritten flacDrive [] = false := by
  decide

/-- Claim C3, amended: the export has the exact header row and one row per
entry of the problem-files sequence, in order, and is written only when
that sequence is non-empty; UnsupportedFormat and aggregate structural
errors live only in the errors report and receive no export row. -/
theorem C3_export_shape (drive : List WalkEntry) (perm : List Nat) :
    export_rows (verify_all drive perm).problemFiles =
      ["file_path", "issue_type", "severity", "description"] ::
        (verify_all drive perm).problemFiles.map
          (fun r => [r.file_path, r.issue_type, r.severity, r.description]) ∧
    (csvWritten drive perm = true ↔ (verify_all drive perm).problemFiles ≠ []) := by
  constructor
  · rfl
  · unfold csvWritten
    simp

/-- Claim C5: no `.m4p` file is ever audited — the extension is in neither
the supported nor the unsupported set, so the file is silently ignored and
the DRM branch of the MP4 handler is unreachable. A tree holding a
DRM-marked `.m4p` file produces no Finding, no error and a pass verdict,
and no scan of any tree ever produces a DRM Finding. -/
theorem C5_drm_unreachable :
    (verify_all m4pDrive []).problemFiles = [] ∧
    (verify_all m4pDrive []).errors = [] ∧
    (verify_all m4pDrive []).passed = true ∧
    ∀ (drive : List WalkEntry) (perm : List Nat),
      (verify_all drive perm).problemFiles.filter (fun r => r.issue_type = "DRM") = [] := by
  refine ⟨by decide, by decide, by decide, ?_⟩
  intro drive perm
  unfold verify_all structuralFindings auditFindings
  dsimp only
  rw [List.filter_append]
  rw [filter_flatMap_nil
        (fun p _ => filter_type_eq_nil (structFileFindings_types p) (by decide)),
      filter_flatMap_nil (fun p _ => fileCsv_filter_drm p)]
  rfl

/-- The Path Length findings of one file are exactly the on-the-spot check
result. -/
theorem structFile_filter_path (p : PFile) :
    (structFileFindings p).filter (fun r => r.issue_type = "Path Length") =
      pathLengthChecks p := by
  unfold structFileFindings
  rw [List.filter_append, List.filter_append,
      filter_type_eq_self (pathLengthChecks_types p),
      filter_type_ne_nil (filenameLengthChecks_types p) (by decide),
      filter_type_ne_nil (invalidCharChecks_types p) (by decide)]
  simp

/-- Claim C8: the Path Length findings of the structure scan are exactly
one Error-severity finding, carrying the measured length, for each walked
file whose relative path is strictly longer than the 60-character limit —
and none for any other file (in particular none at exactly the limit). -/
theorem C8_path_length (drive : List WalkEntry) :
    (structuralFindings drive).filter (fun r => r.issue_type = "Path Length") =
      (discovered drive).filterMap (fun p =>
        let s := relOf p
        let n := s.length
        if n > MAX_PATH_LENGTH then
          some ⟨s, "Path Length", "ERROR",
                s!"Path length {n} exceeds maximum {MAX_PATH_LENGTH}"⟩
        else none) := by
  unfold structuralFindings
  induction discovered drive with
  | nil => rfl
  | cons p ps ih =>
    rw [List.flatMap_cons, List.filter_append, ih, List.filterMap_cons,
        structFile_filter_path]
    unfold pathLengthChecks
    dsimp only
    by_cases hc : (relOf p).length > MAX_PATH_LENGTH
    · simp [hc]
    · simp [hc]

/-- Claim C9: a per-file audit failure never escapes — an unanticipated
exception (`raises`) and each probe failure are converted into exactly one
Error-severity Read Error Finding for that file, the file is audited once
(one finding, no retry), and the surrounding files of the scan are
processed unchanged. -/
theorem C9_read_error_isolation :
    (∀ (dir : List String) (nm ext msg : String),
       fileCsv ⟨dir, ⟨nm, ext, .raises msg⟩⟩ =
         [⟨fmtRel dir nm, "Read Error", "Error", msg⟩]) ∧
    (∀ (rel msg : String),
       (_verify_mp3 rel (.error msg)).2 = [⟨rel, "Read Error", "Error", msg⟩]) ∧
    (∀ (rel msg : String),
       (_verify_wma rel (.error msg)).2 = [⟨rel, "Read Error", "Error", msg⟩]) ∧
    (∀ (rel ext msg : String),
       (_verify_aac_m4a rel ext (.error msg)).2 = [⟨rel, "Read Error", "Error", msg⟩]) ∧
    (∀ (fs1 fs2 : List PFile) (dir : List String) (nm ext msg : String),
       auditFindings (fs1 ++ ⟨dir, ⟨nm, ext, .raises msg⟩⟩ :: fs2)
           (List.range (fs1 ++ ⟨dir, ⟨nm, ext, .raises msg⟩⟩ :: fs2).length) =
         fs1.flatMap fileCsv ++
           [⟨fmtRel dir nm, "Read Error", "Error", msg⟩] ++ fs2.flatMap fileCsv) := by
  refine ⟨fileCsv_raises, fun rel msg => rfl, fun rel msg => rfl, fun rel ext msg => rfl, ?_⟩
  intro fs1 fs2 dir nm ext msg
  rw [auditFindings_range, List.flatMap_append, List.flatMap_cons, fileCsv_raises]
  simp [List.append_assoc]

/-- Of a successfully probed MP3, only the bitrate check group can emit
Bitrate findings. -/
theorem mp3_filter_bitrate (rel : String) (info : MP3Info) :
    (_verify_mp3 rel (.ok info)).2.filter (fun r => r.issue_type = "Bitrate") =
      (mp3BitrateChecks rel info).2.filter (fun r => r.issue_type = "Bitrate") := by
  unfold _verify_mp3
  dsimp only
  rw [List.filter_append, List.filter_append, List.filter_append,
      filter_type_ne_nil (mp3SampleRateChecks_types rel info) (by decide),
      filter_type_ne_nil (mp3VbrChecks_types rel info) (by decide),
      filter_type_eq_nil (mp3TagChecks_types rel info) (by decide)]
  simp

/-- Of a successfully probed MP3, only the sample-rate check can emit
Sample Rate findings. -/
theorem mp3_filter_sample (rel : String) (info : MP3Info) :
    (_verify_mp3 rel (.ok info)).2.filter (fun r => r.issue_type = "Sample Rate") =
      (mp3SampleRateChecks rel info).2.filter (fun r => r.issue_type = "Sample Rate") := by
  unfold _verify_mp3
  dsimp only
  rw [List.filter_append, List.filter_append, List.filter_append,
      filter_type_ne_nil (mp3BitrateChecks_types rel info) (by decide),
      filter_type_ne_nil (mp3VbrChecks_types rel info) (by decide),
      filter_type_eq_nil (mp3TagChecks_types rel info) (by decide)]
  simp

/-- Of a successfully probed MP3, only the tag check group can emit
ID3 Tags findings. -/
theorem mp3_filter_tags (rel : String) (info : MP3Info) :
    (_verify_mp3 rel (.ok info)).2.filter (fun r => r.issue_type = "ID3 Tags") =
      (mp3TagChecks rel info).2.filter (fun r => r.issue_type = "ID3 Tags") := by
  unfold _verify_mp3
  dsimp only
  rw [List.filter_append, List.filter_append, List.filter_append,
      filter_type_ne_nil (mp3BitrateChecks_types rel info) (by decide),
      filter_type_ne_nil (mp3SampleRateChecks_types rel info) (by decide),
      filter_type_ne_nil (mp3VbrChecks_types rel info) (by decide)]
  simp

/-- Claim C4, counterexample: the one-MP3-at-144-kbps tree produces exactly
one Error Bitrate Finding yet `passed` stays true, and a WMA reporting the
forbidden 144 kbps produces no Finding at all (WMA has no forbidden-value
check and 144 lies inside the 32-320 range). -/
theorem C4_counterexample :
    ((verify_all mp3Drive144 [0]).problemFiles.map
        (fun r => (r.issue_type, r.severity))) = [("Bitrate", "Error")] ∧
    (verify_all mp3Drive144 [0]).passed = true ∧
    (verify_all wma144Drive [0]).problemFiles = [] := by
  decide

/-- Claim C4, amended: for a probed MP3 reporting a nonzero bitrate,
`bitrate // 1000 = 144` yields exactly one Error-severity Bitrate Finding,
and a value outside the inclusive 32-320 range yields exactly one
Warning-severity Bitrate Finding; a WMA whose in-range bitrate equals the
forbidden value yields no Finding; `passed` is unaffected either way. -/
theorem C4_bitrate :
    (∀ (rel : String) (info : MP3Info) (b : Nat),
       info.bitrate = some b → b ≠ 0 → b / 1000 = FORBIDDEN_BITRATE →
       (_verify_mp3 rel (.ok info)).2.filter (fun r => r.issue_type = "Bitrate") =
         [⟨rel, "Bitrate", "Error", "144 kbps is forbidden"⟩]) ∧
    (∀ (rel : String) (info : MP3Info) (b : Nat),
       info.bitrate = some b → b ≠ 0 → b / 1000 ≠ FORBIDDEN_BITRATE →
       (b / 1000 < MIN_BITRATE ∨ b / 1000 > MAX_BITRATE) →
       ((_verify_mp3 rel (.ok info)).2.filter (fun r => r.issue_type = "Bitrate")).map
           (fun r => r.severity) = ["Warning"]) ∧
    (∀ (rel : String) (info : ASFInfo) (b : Nat),
       info.bitrate = some b → b ≠ 0 →
       MIN_BITRATE ≤ b / 1000 → b / 1000 ≤ MAX_BITRATE →
       (_verify_wma rel (.ok info)).2 = []) := by
  refine ⟨?_, ?_, ?_⟩
  · intro rel info b hb hb0 hk
    rw [mp3_filter_bitrate]
    unfold mp3BitrateChecks truthy
    rw [hb]
    dsimp only
    rw [if_neg hb0]
    dsimp only
    rw [if_pos hk]
    simp
  · intro rel info b hb hb0 hk hrange
    rw [mp3_filter_bitrate]
    unfold mp3BitrateChecks truthy
    rw [hb]
    dsimp only
    rw [if_neg hb0]
    dsimp only
    rw [if_neg hk, if_pos hrange]
    simp
  · intro rel info b hb hb0 hmin hmax
    unfold _verify_wma truthy
    dsimp only
    rw [hb]
    dsimp only
    rw [if_neg hb0]
    dsimp only
    rw [if_neg (not_or.mpr ⟨not_lt.mpr hmin, not_lt.mpr hmax⟩)]

theorem C4_bitrate_witness :
    (_verify_mp3 "a.mp3" (.ok mp3Info144)).2.filter (fun r => r.issue_type = "Bitrate") =
      [⟨"a.mp3", "Bitrate", "Error", "144 kbps is forbidden"⟩] ∧
    ((_verify_mp3 "a.mp3" (.ok mp3Info24k)).2.filter (fun r => r.issue_type = "Bitrate")).map
      (fun r => r.severity) = ["Warning"] ∧
    (_verify_wma "c.wma" (.ok { bitrate := some 144000 })).2 = [] :=
  ⟨C4_bitrate.1 "a.mp3" mp3Info144 144000 rfl (by decide) (by decide),
   C4_bitrate.2.1 "a.mp3" mp3Info24k 24000 rfl (by decide) (by decide) (by decide),
   C4_bitrate.2.2 "c.wma" { bitrate := some 144000 } 144000 rfl (by decide) (by decide)
     (by decide)⟩

/-- Claim C6, counterexample: an M4A with a 22050 Hz sample rate — outside
the valid discrete set — passes through the scan without any Finding,
because the MP4-family handler only checks the 8-96 kHz range. -/
theorem C6_counterexample :
    (22050 ∈ VALID_SAMPLE_RATES) = False ∧
    (verify_all m4aDrive [0]).problemFiles = [] ∧
    (verify_all m4aDrive [0]).passed = true := by
  refine ⟨by simp [VALID_SAMPLE_RATES], by decide, by decide⟩

/-- Claim C6, amended: only probed MP3 files get the discrete-set check
(one Warning Sample Rate Finding when the rate is outside
{32000, 44100, 48000}); MP4-family files are checked against the 8000-96000
Hz range instead, and WMA files are never checked for sample rate. -/
theorem C6_sample_rate :
    (∀ (rel : String) (info : MP3Info) (sr : Nat), info.sample_rate = sr →
       sr ∉ VALID_SAMPLE_RATES →
       (_verify_mp3 rel (.ok info)).2.filter (fun r => r.issue_type = "Sample Rate") =
         [⟨rel, "Sample Rate", "Warning",
           s!"{sr} Hz (recommended: 32000, 44100, or 48000 Hz)"⟩]) ∧
    (∀ (rel ext : String) (info : MP4Info) (v : Nat), info.sample_rate = some v →
       8000 ≤ v → v ≤ 96000 →
       (_verify_aac_m4a rel ext (.ok info)).2.filter (fun r => r.issue_type = "Sample Rate") =
         []) ∧
    (∀ (rel ext : String) (info : MP4Info) (v : Nat), info.sample_rate = some v →
       (v < 8000 ∨ v > 96000) →
       (_verify_aac_m4a rel ext (.ok info)).2.filter (fun r => r.issue_type = "Sample Rate") =
         [⟨rel, "Sample Rate", "Warning", s!"{v} Hz (range: 8-96 kHz)"⟩]) ∧
    (∀ (rel : String) (x : Except String ASFInfo),
       (_verify_wma rel x).2.filter (fun r => r.issue_type = "Sample Rate") = []) := by
  refine ⟨?_, ?_, ?_, ?_⟩
  · intro rel info sr hsr hmem
    rw [mp3_filter_sample]
    unfold mp3SampleRateChecks
    rw [hsr]
    rw [if_neg hmem]
    simp
  · intro rel ext info v hv h8 h96
    unfold _verify_aac_m4a
    dsimp only
    rw [hv, List.filter_append]
    dsimp only
    rw [if_neg (not_or.mpr ⟨not_lt.mpr h8, not_lt.mpr h96⟩)]
    split <;> simp
  · intro rel ext info v hv hout
    unfold _verify_aac_m4a
    dsimp only
    rw [hv, List.filter_append]
    dsimp only
    rw [if_pos hout]
    split <;> simp
  · intro rel x
    exact filter_type_eq_nil (_verify_wma_types rel x) (by decide)

theorem C6_sample_rate_witness :
    (_verify_mp3 "a.mp3" (.ok mp3Info22k)).2.filter (fun r => r.issue_type = "Sample Rate") =
      [⟨"a.mp3", "Sample Rate", "Warning",
        s!"{22050} Hz (recommended: 32000, 44100, or 48000 Hz)"⟩] ∧
    (_verify_aac_m4a "b.m4a" ".m4a" (.ok { sample_rate := some 22050 })).2.filter
      (fun r => r.issue_type = "Sample Rate") = [] ∧
    (_verify_aac_m4a "b.m4a" ".m4a" (.ok { sample_rate := some 4000 })).2.filter
      (fun r => r.issue_type = "Sample Rate") =
      [⟨"b.m4a", "Sample Rate", "Warning", s!"{4000} Hz (range: 8-96 kHz)"⟩] ∧
    (_verify_wma "c.wma" (.error "boom")).2.filter (fun r => r.issue_type = "Sample Rate") =
      [] :=
  ⟨C6_sample_rate.1 "a.mp3" mp3Info22k 22050 rfl (by decide),
   C6_sample_rate.2.1 "b.m4a" ".m4a" { sample_rate := some 22050 } 22050 rfl (by decide)
     (by decide),
   C6_sample_rate.2.2.1 "b.m4a" ".m4a" { sample_rate := some 4000 } 4000 rfl
     (Or.inl (by decide)),
   C6_sample_rate.2.2.2 "c.wma" (.error "boom")⟩

/-- Claim C7: tag versions 2.3 and 1.x produce no ID3 Tags finding, 2.4
produces exactly one Warning recommending 2.3, any other version produces
exactly one "unusual version" Warning, the absence of tags produces one
Warning, and the verdict stays pass whenever the errors report is empty. -/
theorem C7_tag_version :
    (∀ (rel : String) (info : MP3Info) (tags : ID3Tags) (r : Nat),
       info.tags = some tags → tags.version = some (2, 3, r) →
       (_verify_mp3 rel (.ok info)).2.filter (fun x => x.issue_type = "ID3 Tags") = []) ∧
    (∀ (rel : String) (info : MP3Info) (tags : ID3Tags) (m r : Nat),
       info.tags = some tags → tags.version = some (1, m, r) →
       (_verify_mp3 rel (.ok info)).2.filter (fun x => x.issue_type = "ID3 Tags") = []) ∧
    (∀ (rel : String) (info : MP3Info) (tags : ID3Tags) (r : Nat),
       info.tags = some tags → tags.version = some (2, 4, r) →
       (_verify_mp3 rel (.ok info)).2.filter (fun x => x.issue_type = "ID3 Tags") =
         [⟨rel, "ID3 Tags", "Warning", "ID3v2.4 (ID3v2.3 recommended)"⟩]) ∧
    (∀ (rel : String) (info : MP3Info) (tags : ID3Tags) (mj mn r : Nat),
       info.tags = some tags → tags.version = some (mj, mn, r) →
       ¬(mj = 2 ∧ mn = 3) → ¬(mj = 2 ∧ mn = 4) → mj ≠ 1 →
       (_verify_mp3 rel (.ok info)).2.filter (fun x => x.issue_type = "ID3 Tags") =
         [⟨rel, "ID3 Tags", "Warning", s!"Unusual ID3 version {mj}.{mn}"⟩]) ∧
    (∀ (rel : String) (info : MP3Info), info.tags = none →
       (_verify_mp3 rel (.ok info)).2.filter (fun x => x.issue_type = "ID3 Tags") =
         [⟨rel, "ID3 Tags", "Warning", "No ID3 tags found"⟩]) ∧
    (∀ (drive : List WalkEntry) (perm : List Nat),
       structureErrors drive = [] → unsupportedErrors drive = [] →
       (verify_all drive perm).passed = true) := by
  have hver : ∀ (rel : String) (info : MP3Info) (tags : ID3Tags),
      info.tags = some tags →
      (_verify_mp3 rel (.ok info)).2.filter (fun x => x.issue_type = "ID3 Tags") =
        (tagVersionChecks rel tags).2 := by
    intro rel info tags ht
    rw [mp3_filter_tags]
    unfold mp3TagChecks
    rw [ht]
    unfold _verify_id3_tags
    dsimp only
    rw [List.filter_append,
        filter_type_eq_self (tagVersionChecks_types rel tags),
        filter_type_ne_nil (albumArtChecks_types rel tags) (by decide)]
    simp
  refine ⟨?_, ?_, ?_, ?_, ?_, ?_⟩
  · intro rel info tags r ht hv
    rw [hver rel info tags ht]
    unfold tagVersionChecks
    rw [hv]
    dsimp only
    rw [if_pos ⟨rfl, rfl⟩]
  · intro rel info tags m r ht hv
    rw [hver rel info tags ht]
    unfold tagVersionChecks
    rw [hv]
    dsimp only
    rw [if_neg (by simp), if_neg (by simp), if_pos rfl]
  · intro rel info tags r ht hv
    rw [hver rel info tags ht]
    unfold tagVersionChecks
    rw [hv]
    dsimp only
    rw [if_neg (by simp), if_pos ⟨rfl, rfl⟩]
  · intro rel info tags mj mn r ht hv h23 h24 h1
    rw [hver rel info tags ht]
    unfold tagVersionChecks
    rw [hv]
    dsimp only
    rw [if_neg h23, if_neg h24, if_neg h1]
  · intro rel info ht
    rw [mp3_filter_tags]
    unfold mp3TagChecks
    rw [ht]
    simp
  · intro drive perm h1 h2
    unfold verify_all
    dsimp only
    rw [h1, h2]
    rfl

theorem C7_tag_version_witness :
    (_verify_mp3 "a.mp3" (.ok mp3Info144)).2.filter (fun x => x.issue_type = "ID3 Tags") =
      [] ∧
    (_verify_mp3 "a.mp3" (.ok mp3InfoV1)).2.filter (fun x => x.issue_type = "ID3 Tags") =
      [] ∧
    (_verify_mp3 "a.mp3" (.ok mp3InfoV24)).2.filter (fun x => x.issue_type = "ID3 Tags") =
      [⟨"a.mp3", "ID3 Tags", "Warning", "ID3v2.4 (ID3v2.3 recommended)"⟩] ∧
    (_verify_mp3 "a.mp3" (.ok mp3InfoV22)).2.filter (fun x => x.issue_type = "ID3 Tags") =
      [⟨"a.mp3", "ID3 Tags", "Warning", s!"Unusual ID3 version {2}.{2}"⟩] ∧
    (_verify_mp3 "a.mp3" (.ok mp3InfoNoTags)).2.filter (fun x => x.issue_type = "ID3 Tags") =
      [⟨"a.mp3", "ID3 Tags", "Warning", "No ID3 tags found"⟩] ∧
    (verify_all tagDrive [0]).passed = true :=
  ⟨C7_tag_version.1 "a.mp3" mp3Info144 { version := some (2, 3, 0), apicDataSizes := [] } 0
     rfl rfl,
   C7_tag_version.2.1 "a.mp3" mp3InfoV1 { version := some (1, 1, 0), apicDataSizes := [] } 1 0
     rfl rfl,
   C7_tag_version.2.2.1 "a.mp3" mp3InfoV24 { version := some (2, 4, 0), apicDataSizes := [] }
     0 rfl rfl,
   C7_tag_version.2.2.2.1 "a.mp3" mp3InfoV22 { version := some (2, 2, 0), apicDataSizes := [] }
     2 2 0 rfl rfl (by decide) (by decide) (by decide),
   C7_tag_version.2.2.2.2.1 "a.mp3" mp3InfoNoTags rfl,
   C7_tag_version.2.2.2.2.2 tagDrive [0] rfl rfl⟩

/-- Claim C10: an MP3 or WMA whose metadata reports no bitrate (field
absent, or zero, which Python treats as falsy) receives no Bitrate Finding
of any severity — both the forbidden-value and the range checks are
skipped. -/
theorem C10_no_bitrate :
    (∀ (rel : String) (info : MP3Info), info.bitrate = none ∨ info.bitrate = some 0 →
       (_verify_mp3 rel (.ok info)).2.filter (fun r => r.issue_type = "Bitrate") = []) ∧
    (∀ (rel : String) (info : ASFInfo), info.bitrate = none ∨ info.bitrate = some 0 →
       (_verify_wma rel (.ok info)).2 = []) := by
  constructor
  · intro rel info hb
    rw [mp3_filter_bitrate]
    have ht : truthy info.bitrate = none := by
      rcases hb with h | h <;> simp [truthy, h]
    unfold mp3BitrateChecks
    rw [ht]
    rfl
  · intro rel info hb
    have ht : truthy info.bitrate = none := by
      rcases hb with h | h <;> simp [truthy, h]
    unfold _verify_wma
    dsimp only
    rw [ht]

theorem C10_no_bitrate_witness :
    (_verify_mp3 "a.mp3" (.ok mp3InfoNoBitrate)).2.filter
      (fun r => r.issue_type = "Bitrate") = [] ∧
    (_verify_wma "c.wma" (.ok { bitrate := some 0 })).2 = [] :=
  ⟨C10_no_bitrate.1 "a.mp3" mp3InfoNoBitrate (Or.inl rfl),
   C10_no_bitrate.2 "c.wma" { bitrate := some 0 } (Or.inr rfl)⟩

end VolvoUSBVerifier
